import Mathlib

/-!
Verification of the FacePoke expression-edit composition layer.

The visible source is the `EmotionPresets` React component (three variants:
`src/client/src/components/EmotionPresets.tsx` without per-landmark params,
and the two unnamed variants that carry optional semantic params) together
with docs and shell scripts.  The component's preset tables, its
`modifyImage` dispatch loop, and its render gating are embedded here from
the source.  The Composition Engine, Edit Normalizer, Dispatch Protocol and
Preview State of the specification are not present under the visible source;
they are modelled from the spec, with each such definition marked
`Modelled from the spec:` in its doc comment.

Numbers are modelled as exact rationals; the derived `distance` magnitude,
which the source computes with `Math.sqrt`, is modelled over the reals.
-/

/-- The landmark groups named in the visible source and the spec
(`background, leftEyebrow, rightEyebrow, leftEye, rightEye, lips, faceOval`). -/
inductive LandmarkGroup where
  | background
  | leftEyebrow
  | rightEyebrow
  | leftEye
  | rightEye
  | lips
  | faceOval
deriving DecidableEq, Repr

/-- The semantic parameter names of the data model
(`aaa, eee, eyebrow, eyes, pupil_x, pupil_y, rotate_pitch, rotate_roll, rotate_yaw`). -/
inductive ParamName where
  | aaa
  | eee
  | eyebrow
  | eyes
  | pupil_x
  | pupil_y
  | rotate_pitch
  | rotate_roll
  | rotate_yaw
deriving DecidableEq, Repr

/-- A 3D displacement vector `{x, y, z}`. -/
structure Vec3 where
  x : ℚ
  y : ℚ
  z : ℚ
deriving DecidableEq, Repr

/-- One entry of a preset's `landmarks` array: a group, a vector, and the
optional named params (`aaa?`, `eee?`, ... in the source interface),
represented as an association list in declaration order. -/
structure PresetLandmark where
  group : LandmarkGroup
  vector : Vec3
  params : List (ParamName × ℚ)
deriving DecidableEq, Repr

/-- The `EmotionPreset` interface of the source: a name, an ordered
`landmarks` array, and an optional description. -/
structure EmotionPreset where
  name : String
  landmarks : List PresetLandmark
  description : Option String
deriving DecidableEq, Repr

/-- The source writes `mode: 'PRIMARY' as ActionMode`; `ActionMode` is a
string-valued tag in the source's type layer. -/
abbrev ActionMode := String

/-- The `landmark` payload built inside `modifyImage({...})`:
`{ group, distance: Math.sqrt(vector.x*vector.x + vector.y*vector.y), vector, ...params }`. -/
structure LandmarkPayload where
  group : LandmarkGroup
  distance : ℝ
  vector : Vec3
  params : List (ParamName × ℚ)

/-- The full argument of each `modifyImage` call:
`{ landmark: {...}, vector, mode: 'PRIMARY' }`. -/
structure ModifyImageMessage where
  landmark : LandmarkPayload
  vector : Vec3
  mode : ActionMode

/-- Embeds the body of the source's per-landmark dispatch
(`EmotionPresets.tsx` lines 101-110, unnamed part_001 lines 200-211):
the rest-spread `...params` cannot contain a `group` or `vector` key because
both were destructured away, so the nested vector is exactly the top-level
one, and `distance` is computed inline from the vector with `z` excluded. -/
noncomputable def mkModifyImageMessage (l : PresetLandmark) : ModifyImageMessage :=
  { landmark :=
      { group := l.group
        distance := Real.sqrt ((l.vector.x : ℝ) * (l.vector.x : ℝ)
          + (l.vector.y : ℝ) * (l.vector.y : ℝ))
        vector := l.vector
        params := l.params }
    vector := l.vector
    mode := "PRIMARY" }

/-- Embeds the `onClick` handler: `emotion.landmarks.forEach(... modifyImage(...))`,
one outbound message per declared landmark, in array order. -/
noncomputable def activatePreset (p : EmotionPreset) : List ModifyImageMessage :=
  p.landmarks.map mkModifyImageMessage

/-- The broad-smile lips entry of the Happy preset (unnamed part_001 lines 174-178):
`{ group: "lips", vector: { x: 0.41, y: 0.21, z: 0 }, aaa: 13, eee: 12 }`. -/
def happyLips : PresetLandmark :=
  ⟨.lips, ⟨0.41, 0.21, 0⟩, [(.aaa, 13), (.eee, 12)]⟩

/-- The Angry preset of `EMOTION_PRESETS` in unnamed part_001. -/
def angryPreset : EmotionPreset :=
  { name := "😠 Angry"
    landmarks :=
      [ ⟨.background, ⟨0.12, -0.04, 0⟩, []⟩
      , ⟨.leftEyebrow, ⟨0.05, 0.15, 0⟩, [(.eyebrow, -1.29)]⟩
      , ⟨.leftEye, ⟨0.18, -0.25, 0⟩, [(.eyes, -1.08), (.pupil_x, 5.5), (.pupil_y, 0)]⟩
      , ⟨.lips, ⟨-0.38, 0.36, 0⟩, [(.aaa, -10.08), (.eee, -16.02)]⟩ ]
    description := some "Furrowed eyebrows, narrowed eyes, and a tense, downturned mouth" }

/-- The Sad preset of `EMOTION_PRESETS` in unnamed part_001. -/
def sadPreset : EmotionPreset :=
  { name := "😢 Sad"
    landmarks :=
      [ ⟨.background, ⟨-0.11, 0.12, 0⟩, []⟩
      , ⟨.leftEyebrow, ⟨0.01, 0.16, 0⟩, [(.eyebrow, -1.68)]⟩
      , ⟨.leftEye, ⟨-0.2334098950897014, 0.11482211814970011, 0⟩,
          [(.eyes, -10), (.pupil_x, -7)]⟩
      , ⟨.lips, ⟨0, 0.47, 0⟩, [(.aaa, -26), (.eee, -2)]⟩ ]
    description := some "Drooping features with a downturned mouth" }

/-- The Surprised preset of `EMOTION_PRESETS` in unnamed part_001. -/
def surprisedPreset : EmotionPreset :=
  { name := "😮 Surprised"
    landmarks :=
      [ ⟨.background, ⟨-0.03, 0.06, 0⟩, []⟩
      , ⟨.leftEyebrow, ⟨0.05, -0.48, 0⟩, [(.eyebrow, 14.70)]⟩
      , ⟨.leftEye, ⟨0.01, -0.43, 0⟩, [(.eyes, 3.5), (.pupil_x, 0.56), (.pupil_y, 0)]⟩
      , ⟨.lips, ⟨0.02, -0.41, 0⟩, [(.aaa, 107), (.eee, -1.76)]⟩ ]
    description := some "Raised eyebrows, wide open eyes, and an open mouth" }

/-- The Thinking preset of `EMOTION_PRESETS` in unnamed part_001. -/
def thinkingPreset : EmotionPreset :=
  { name := "🤔 Thinking"
    landmarks :=
      [ ⟨.background, ⟨0.5, -0.3, 0⟩, []⟩
      , ⟨.leftEyebrow, ⟨0.12, -0.42, 0⟩, [(.eyebrow, 13.03)]⟩
      , ⟨.lips, ⟨-0.09, 0.31, 0⟩, [(.aaa, -1.52), (.eee, -5.89)]⟩ ]
    description := some "A contemplative look with a subtle head tilt and smirk" }

/-- The Happy preset of `EMOTION_PRESETS` in unnamed part_001. -/
def happyPreset : EmotionPreset :=
  { name := "😊 Happy"
    landmarks :=
      [ ⟨.background, ⟨0.1, -0.1, 0⟩, []⟩
      , ⟨.leftEyebrow, ⟨0.54, -0.45, 0⟩, [(.eyebrow, 13)]⟩
      , ⟨.rightEyebrow, ⟨0.54, -0.45, 0⟩, [(.eyebrow, 13)]⟩
      , ⟨.leftEye, ⟨0.045, -0.39, 0⟩, [(.eyes, 2.5)]⟩
      , happyLips ]
    description := some "A broad smile with relaxed, cheerful features" }

/-- The `EMOTION_PRESETS` table of unnamed part_001 (the parameter-bearing
variant cited by the spec). -/
def EMOTION_PRESETS : List EmotionPreset :=
  [angryPreset, sadPreset, surprisedPreset, thinkingPreset, happyPreset]

/-- The `EMOTION_PRESETS` table of `EmotionPresets.tsx` (the variant whose
landmark records carry only a group and a vector, no params). -/
def EMOTION_PRESETS_simple : List EmotionPreset :=
  [ { name := "😠 Angry"
      landmarks :=
        [ ⟨.background, ⟨0, 0.3, 0⟩, []⟩, ⟨.leftEyebrow, ⟨0, 0.3, 0⟩, []⟩
        , ⟨.rightEyebrow, ⟨0, 0.3, 0⟩, []⟩, ⟨.leftEye, ⟨0, 0.3, 0⟩, []⟩
        , ⟨.rightEye, ⟨0, 0.3, 0⟩, []⟩, ⟨.lips, ⟨0, 0.3, 0⟩, []⟩ ]
      description := some "Tilted down, intense gaze" }
  , { name := "😢 Sad"
      landmarks :=
        [ ⟨.background, ⟨0, 0.3, 0⟩, []⟩, ⟨.leftEyebrow, ⟨0, -0.3, 0⟩, []⟩
        , ⟨.rightEyebrow, ⟨0, -0.3, 0⟩, []⟩, ⟨.lips, ⟨0, 0.3, 0⟩, []⟩ ]
      description := some "Looking down, slight tilt" }
  , { name := "😮 Surprised"
      landmarks :=
        [ ⟨.background, ⟨0, -0.3, 0⟩, []⟩, ⟨.leftEyebrow, ⟨0, -0.4, 0⟩, []⟩
        , ⟨.rightEyebrow, ⟨0, -0.4, 0⟩, []⟩, ⟨.leftEye, ⟨0, -0.3, 0⟩, []⟩
        , ⟨.rightEye, ⟨0, -0.3, 0⟩, []⟩, ⟨.lips, ⟨0, -0.4, 0⟩, []⟩ ]
      description := some "Looking up, wide-eyed" }
  , { name := "😨 Scared"
      landmarks :=
        [ ⟨.background, ⟨0.2, -0.3, 0⟩, []⟩, ⟨.leftEyebrow, ⟨0, -0.4, 0⟩, []⟩
        , ⟨.rightEyebrow, ⟨0, -0.4, 0⟩, []⟩, ⟨.leftEye, ⟨0, -0.3, 0⟩, []⟩
        , ⟨.rightEye, ⟨0, -0.3, 0⟩, []⟩, ⟨.lips, ⟨0, -0.3, 0⟩, []⟩ ]
      description := some "Tilted back, fearful expression" }
  , { name := "🤔 Thinking"
      landmarks :=
        [ ⟨.faceOval, ⟨0.3, 0, 0⟩, []⟩, ⟨.leftEyebrow, ⟨0, -0.2, 0⟩, []⟩
        , ⟨.lips, ⟨0.2, 0, 0⟩, []⟩ ]
      description := some "Tilted, contemplative look" }
  , { name := "😊 Happy"
      landmarks :=
        [ ⟨.background, ⟨0, -0.1, 0⟩, []⟩, ⟨.leftEyebrow, ⟨0, -0.2, 0⟩, []⟩
        , ⟨.rightEyebrow, ⟨0, -0.2, 0⟩, []⟩, ⟨.leftEye, ⟨0, 0.2, 0⟩, []⟩
        , ⟨.rightEye, ⟨0, 0.2, 0⟩, []⟩, ⟨.lips, ⟨0.3, -0.2, 0⟩, []⟩ ]
      description := some "Cheerful expression" } ]

/-- What the component renders: `null`, or the grid of preset buttons. -/
inductive RenderOutput where
  | nothing
  | presetButtons (buttons : List EmotionPreset)
deriving DecidableEq

/-- JavaScript truthiness of the `previewImage` store value: `null` and the
empty string are falsy. -/
def jsTruthy : Option String → Bool
  | none => false
  | some s => s ≠ ""

/-- Embeds the component body (`EmotionPresets.tsx` lines 88-96, unnamed
part_001 lines 187-195): `if (!previewImage) return null;` and otherwise the
button grid mapped over `EMOTION_PRESETS`. -/
def renderEmotionPresets (previewImage : Option String) : RenderOutput :=
  if jsTruthy previewImage then .presetButtons EMOTION_PRESETS else .nothing

/-- All outbound messages reachable by clicking a button of a render output:
none at all when nothing was rendered. -/
noncomputable def clickableDispatches : RenderOutput → List ModifyImageMessage
  | .nothing => []
  | .presetButtons ps => (ps.map activatePreset).flatten

/-- Modelled from the spec: the canonical `Edit` record of §3 (the Edit
Normalizer and Composition Engine are not part of the visible source).
`distance` is a read-only derived field, so it is a function of the record
(see `Edit.distance`), not stored data. -/
structure Edit where
  group : LandmarkGroup
  vector : Vec3
  params : List (ParamName × ℚ)
deriving DecidableEq, Repr

/-- Modelled from the spec: the derived magnitude
`distance = sqrt(vector.x² + vector.y²)` (§3, §4.2); `z` is excluded. -/
noncomputable def Edit.distance (e : Edit) : ℝ :=
  Real.sqrt ((e.vector.x : ℝ) ^ 2 + (e.vector.y : ℝ) ^ 2)

/-- Modelled from the spec: ExpressionState, a mapping from LandmarkGroup to
the last-applied Edit (§3); absent groups map to `none`. -/
abbrev ExpressionState := LandmarkGroup → Option Edit

/-- Modelled from the spec: the empty ExpressionState created when a new
photo is loaded. -/
def emptyState : ExpressionState := fun _ => none

/-- Modelled from the spec: the Composition Engine's single-edit apply under
`PRIMARY` mode (§4.3) — the incoming Edit replaces any previous entry for
its group (last-write-wins) and leaves every other group untouched. -/
def applyEdit (s : ExpressionState) (e : Edit) : ExpressionState :=
  fun g => if g = e.group then some e else s g

/-- Modelled from the spec: the Landmark Catalog (§4.1) — the set of regions
and, per region, the accepted semantic parameter names. -/
structure LandmarkCatalog where
  regions : List LandmarkGroup
  accepted : LandmarkGroup → List ParamName

/-- Modelled from the spec: a concrete catalog instance covering the regions
of §3, with each region accepting the parameters the preset data uses for
it (rotations on `background`, `eyebrow` on the eyebrows, eye controls on
the eyes, mouth shapes on `lips`). -/
def facePokeCatalog : LandmarkCatalog :=
  { regions := [.background, .leftEyebrow, .rightEyebrow, .leftEye, .rightEye, .lips, .faceOval]
    accepted := fun g =>
      match g with
      | .background => [.rotate_pitch, .rotate_yaw, .rotate_roll]
      | .leftEyebrow => [.eyebrow]
      | .rightEyebrow => [.eyebrow]
      | .leftEye => [.eyes, .pupil_x, .pupil_y]
      | .rightEye => [.eyes, .pupil_x, .pupil_y]
      | .lips => [.aaa, .eee]
      | .faceOval => [] }

/-- A raw interaction reaching the Edit Normalizer: a group, a vector and
whatever params the interaction or preset declared. -/
structure RawInteraction where
  group : LandmarkGroup
  vector : Vec3
  params : List (ParamName × ℚ)
deriving DecidableEq, Repr

/-- The error taxonomy of §7 that the normalizer can signal. -/
inductive NormError where
  | UnknownLandmarkGroup
deriving DecidableEq, Repr

/-- Modelled from the spec: the Edit Normalizer (§4.2) — fails with
`UnknownLandmarkGroup` when the group is not in the catalog; otherwise keeps
the vector, silently drops params keys outside `paramsAccepted(group)`, and
passes every numeric value through unchanged (no range check). -/
def normalizeEdit (cat : LandmarkCatalog) (raw : RawInteraction) : Except NormError Edit :=
  if raw.group ∈ cat.regions then
    .ok { group := raw.group
          vector := raw.vector
          params := raw.params.filter (fun kv => decide (kv.1 ∈ cat.accepted raw.group)) }
  else
    .error .UnknownLandmarkGroup

/-- Modelled from the spec: Preview State (§4.5) — the originating photo
reference and the latest rendered artifact, if any. -/
structure PreviewState where
  originalPhoto : String
  renderedArtifact : Option String
deriving DecidableEq, Repr

/-- One editing session: its ExpressionState and its Preview State. -/
structure Session where
  expr : ExpressionState
  preview : PreviewState

/-- Modelled from the spec: the backend's answer to one dispatched edit —
either a rendered image or `DispatchFailed` (§4.4). -/
inductive DispatchResult where
  | rendered (img : String)
  | failed
deriving DecidableEq, Repr

/-- Modelled from the spec: preset activation against the Composition Engine
and Dispatch Protocol (§4.3, §4.4).  `outcome i` is the backend's answer to
the dispatch of the i-th edit.  Each edit is first merged locally, then
dispatched; a successful dispatch updates the rendered artifact, a failed
one is reported in the returned log and leaves Preview State unchanged, and
processing continues with the remaining edits either way. -/
def runPresetAux (outcome : Nat → DispatchResult) (i : Nat) (s : Session) :
    List Edit → Session × List (Nat × DispatchResult)
  | [] => (s, [])
  | e :: rest =>
    let merged : Session := { s with expr := applyEdit s.expr e }
    let r := outcome i
    let afterDispatch : Session :=
      match r with
      | .rendered img =>
        { merged with preview := { merged.preview with renderedArtifact := some img } }
      | .failed => merged
    let tail := runPresetAux outcome (i + 1) afterDispatch rest
    (tail.1, (i, r) :: tail.2)

/-- Modelled from the spec: run a whole preset's edit list from a session,
returning the final session and the ordered log of attempted dispatches. -/
def runPreset (outcome : Nat → DispatchResult) (s : Session) (es : List Edit) :
    Session × List (Nat × DispatchResult) :=
  runPresetAux outcome 0 s es

/-- The signal the reset action sends to the Dispatch Protocol. -/
inductive ResetSignal where
  | restoreOriginal
deriving DecidableEq, Repr

/-- Modelled from the spec: `resetSession` (§4.3, §6) — discards
ExpressionState entirely, clears the rendered artifact while keeping the
original photo reference, and signals the backend to restore the original
unedited photo. -/
def resetSession (s : Session) : Session × ResetSignal :=
  ( { expr := emptyState
      preview := { originalPhoto := s.preview.originalPhoto, renderedArtifact := none } }
  , .restoreOriginal )

/-- Claim C1: under PRIMARY mode, for any sequence of Edits all targeting
the same landmark group, the resulting ExpressionState entry for that group
is the last Edit of the sequence alone — replacement, not accumulation. -/
theorem c1_last_write_wins (g : LandmarkGroup) (e : Edit) (es : List Edit)
    (s : ExpressionState)
    (hall : ∀ e' ∈ es, e'.group = g) (hlast : es.getLast? = some e) :
    List.foldl applyEdit s es g = some e := by
  induction es generalizing s with
  | nil => simp at hlast
  | cons a rest ih =>
    cases rest with
    | nil =>
      have ha : a = e := by simpa using hlast
      subst ha
      have hg : a.group = g := hall a (List.mem_cons_self a [])
      simp [List.foldl, applyEdit, hg]
    | cons b rest2 =>
      rw [List.getLast?_cons_cons] at hlast
      have hall' : ∀ e' ∈ b :: rest2, e'.group = g :=
        fun e' he' => hall e' (List.mem_cons_of_mem a he')
      simpa [List.foldl_cons] using ih (applyEdit s a) hall' hlast

/-- The first Edit of the spec example for C1: the Happy lips edit. -/
def lipsEditA : Edit := ⟨.lips, ⟨0.41, 0.21, 0⟩, [(.aaa, 13), (.eee, 12)]⟩

/-- The second Edit of the spec example for C1: an all-zero lips edit with
no params. -/
def lipsEditB : Edit := ⟨.lips, ⟨0, 0, 0⟩, []⟩

/-- Witness for C1 at the spec example: applying the two lips edits in
order leaves the lips entry equal to the second edit only. -/
theorem c1_last_write_wins_witness :
    List.foldl applyEdit emptyState [lipsEditA, lipsEditB] LandmarkGroup.lips
      = some lipsEditB :=
  c1_last_write_wins .lips lipsEditB [lipsEditA, lipsEditB] emptyState
    (by decide) (by decide)

/-- Claim C2: the `distance` of every dispatched message equals
`sqrt(x² + y²)` of that message's own vector, it is unchanged under any
change of the vector's `z` component, and the spec model's `Edit.distance`
is likewise derived from the vector alone (never supplied independently). -/
theorem c2_distance_derived (l : PresetLandmark) (z' : ℚ) :
    (mkModifyImageMessage l).landmark.distance
        = Real.sqrt (((mkModifyImageMessage l).landmark.vector.x : ℝ) ^ 2
            + ((mkModifyImageMessage l).landmark.vector.y : ℝ) ^ 2)
    ∧ (mkModifyImageMessage { l with vector := { l.vector with z := z' } }).landmark.distance
        = (mkModifyImageMessage l).landmark.distance
    ∧ ∀ e : Edit,
        e.distance = Real.sqrt ((e.vector.x : ℝ) ^ 2 + (e.vector.y : ℝ) ^ 2) := by
  refine ⟨?_, rfl, fun e => rfl⟩
  simp only [mkModifyImageMessage]
  rw [pow_two, pow_two]

/-- Claim C3: activating a preset with N declared landmark edits produces
exactly N outbound messages, one per declared edit, in declaration order
(the i-th message is built from the i-th declared landmark). -/
theorem c3_dispatch_count_and_order (p : EmotionPreset) :
    (activatePreset p).length = p.landmarks.length
    ∧ ∀ i : Nat,
        (activatePreset p)[i]? = (p.landmarks[i]?).map mkModifyImageMessage := by
  constructor
  · simp [activatePreset]
  · intro i
    simp [activatePreset]

/-- Claim C4: the single-edit apply operation is idempotent — applying the
same Edit twice yields the same ExpressionState as applying it once. -/
theorem c4_apply_idempotent (s : ExpressionState) (e : Edit) :
    applyEdit (applyEdit s e) e = applyEdit s e := by
  funext g
  by_cases h : g = e.group <;> simp [applyEdit, h]

/-- Claim C5: for a known group, normalization never fails — the vector is
kept intact, every params key outside `paramsAccepted(group)` is dropped,
every accepted key survives with its numeric value passed through unchanged
(no range check can reject it). -/
theorem c5_unsupported_params_dropped (cat : LandmarkCatalog) (raw : RawInteraction)
    (hg : raw.group ∈ cat.regions) :
    ∃ ed : Edit, normalizeEdit cat raw = .ok ed
      ∧ ed.group = raw.group
      ∧ ed.vector = raw.vector
      ∧ (∀ kv ∈ raw.params, kv.1 ∉ cat.accepted raw.group → kv ∉ ed.params)
      ∧ (∀ kv ∈ raw.params, kv.1 ∈ cat.accepted raw.group → kv ∈ ed.params) := by
  refine ⟨{ group := raw.group
            vector := raw.vector
            params := raw.params.filter
              (fun kv => decide (kv.1 ∈ cat.accepted raw.group)) },
          ?_, rfl, rfl, ?_, ?_⟩
  · unfold normalizeEdit
    rw [if_pos hg]
  · intro kv hkv hnot hmem
    exact hnot (of_decide_eq_true (List.mem_filter.mp hmem).2)
  · intro kv hkv hacc
    exact List.mem_filter.mpr ⟨hkv, decide_eq_true hacc⟩

/-- A raw interaction carrying one accepted key with an out-of-range value
(`aaa: 107`, as the Surprised preset does) and one key (`eyebrow`) that the
lips group does not accept. -/
def demoRaw : RawInteraction :=
  ⟨.lips, ⟨0.1, 0.2, 0⟩, [(.aaa, 107), (.eyebrow, 5)]⟩

/-- Witness for C5 at a concrete interaction against the concrete catalog. -/
theorem c5_unsupported_params_dropped_witness :
    ∃ ed : Edit, normalizeEdit facePokeCatalog demoRaw = .ok ed
      ∧ ed.group = demoRaw.group
      ∧ ed.vector = demoRaw.vector
      ∧ (∀ kv ∈ demoRaw.params,
          kv.1 ∉ facePokeCatalog.accepted demoRaw.group → kv ∉ ed.params)
      ∧ (∀ kv ∈ demoRaw.params,
          kv.1 ∈ facePokeCatalog.accepted demoRaw.group → kv ∈ ed.params) :=
  c5_unsupported_params_dropped facePokeCatalog demoRaw (by decide)

lemma runPresetAux_expr (outcome : Nat → DispatchResult) (i : Nat) (s : Session)
    (es : List Edit) :
    (runPresetAux outcome i s es).1.expr = List.foldl applyEdit s.expr es := by
  induction es generalizing i s with
  | nil => rfl
  | cons e rest ih =>
    simp only [runPresetAux, List.foldl_cons]
    rw [ih]
    cases h : outcome i <;> simp [h]

lemma runPresetAux_log (outcome : Nat → DispatchResult) (i : Nat) (s : Session)
    (es : List Edit) :
    (runPresetAux outcome i s es).2
      = (List.range' i es.length).map (fun j => (j, outcome j)) := by
  induction es generalizing i s with
  | nil => rfl
  | cons e rest ih =>
    simp only [runPresetAux, List.length_cons, List.range'_succ, List.map_cons]
    rw [ih]

lemma runPresetAux_append (outcome : Nat → DispatchResult) (i : Nat) (s : Session)
    (as bs : List Edit) :
    (runPresetAux outcome i s (as ++ bs)).1
      = (runPresetAux outcome (i + as.length) (runPresetAux outcome i s as).1 bs).1 := by
  induction as generalizing i s with
  | nil => simp [runPresetAux]
  | cons a rest ih =>
    simp only [List.cons_append, runPresetAux, List.length_cons, List.append_eq]
    rw [ih]
    have hidx : i + 1 + rest.length = i + (rest.length + 1) := by omega
    rw [hidx]

/-- Claim C6: when the dispatch of the k-th edit of a preset fails, every
edit up to and including the k-th is already committed into ExpressionState
with no rollback, dispatch of every later edit is still attempted in order,
the failure is reported in the dispatch log, and the failing step leaves
Preview State unchanged. -/
theorem c6_failed_dispatch_no_rollback (outcome : Nat → DispatchResult)
    (s : Session) (pre post : List Edit) (e : Edit)
    (hfail : outcome pre.length = DispatchResult.failed) :
    ((runPreset outcome s (pre ++ e :: post)).2.map Prod.fst
        = List.range (pre.length + (post.length + 1)))
    ∧ ((pre.length, DispatchResult.failed) ∈ (runPreset outcome s (pre ++ e :: post)).2)
    ∧ ((runPreset outcome s (pre ++ [e])).1.expr
        = List.foldl applyEdit s.expr (pre ++ [e]))
    ∧ ((runPreset outcome s (pre ++ [e])).1.preview
        = (runPreset outcome s pre).1.preview) := by
  refine ⟨?_, ?_, ?_, ?_⟩
  · rw [runPreset, runPresetAux_log, List.map_map, List.range_eq_range']
    simp [Function.comp_def]
  · rw [runPreset, runPresetAux_log]
    refine List.mem_map.mpr ⟨pre.length, ?_, by rw [hfail]⟩
    simp [List.mem_range'_1]
  · rw [runPreset, runPresetAux_expr]
  · simp only [runPreset]
    rw [runPresetAux_append]
    simp [runPresetAux, hfail]

/-- The backend answer used by the C6 witness: the dispatch of the edit at
index 1 fails, every other dispatch renders a frame. -/
def demoOutcome : Nat → DispatchResult :=
  fun j => if j = 1 then .failed else .rendered "frame"

/-- The session used by the C6 witness. -/
def demoSession : Session := ⟨emptyState, ⟨"photo", none⟩⟩

/-- The three edits of the C6 witness (the Thinking preset of part_001 read
as spec-level Edits). -/
def bgEdit : Edit := ⟨.background, ⟨0.5, -0.3, 0⟩, []⟩

def browEdit : Edit := ⟨.leftEyebrow, ⟨0.12, -0.42, 0⟩, [(.eyebrow, 13.03)]⟩

def lipsEditC : Edit := ⟨.lips, ⟨-0.09, 0.31, 0⟩, [(.aaa, -1.52), (.eee, -5.89)]⟩

/-- Witness for C6: in a 3-edit activation whose 2nd dispatch fails, the
failure shows up in the dispatch log at index 1. -/
theorem c6_failed_dispatch_no_rollback_witness :
    ((1 : Nat), DispatchResult.failed)
      ∈ (runPreset demoOutcome demoSession ([bgEdit] ++ browEdit :: [lipsEditC])).2 :=
  (c6_failed_dispatch_no_rollback demoOutcome demoSession [bgEdit] [lipsEditC]
    browEdit rfl).2.1

/-- Claim C7: whatever edit history produced the session, resetting it
discards ExpressionState back to empty, clears the rendered artifact while
keeping the original photo reference, and signals the backend to restore
the original unedited photo. -/
theorem c7_reset_clears_everything (outcome : Nat → DispatchResult) (s : Session)
    (history : List Edit) :
    (resetSession (runPreset outcome s history).1).1.expr = emptyState
    ∧ (resetSession (runPreset outcome s history).1).1.preview.renderedArtifact = none
    ∧ (resetSession (runPreset outcome s history).1).1.preview.originalPhoto
        = (runPreset outcome s history).1.preview.originalPhoto
    ∧ (resetSession (runPreset outcome s history).1).2 = ResetSignal.restoreOriginal :=
  ⟨rfl, rfl, rfl, rfl⟩

/-- Claim C8: every message produced by activating a preset carries the
ActionMode tag `PRIMARY`; the dispatch loop hard-codes it, so no other mode
value is ever emitted. -/
theorem c8_mode_always_primary (p : EmotionPreset) (m : ModifyImageMessage)
    (hm : m ∈ activatePreset p) : m.mode = "PRIMARY" := by
  obtain ⟨l, -, rfl⟩ := List.mem_map.mp hm
  rfl

/-- Witness for C8 at the Happy preset's lips edit. -/
theorem c8_mode_always_primary_witness :
    (mkModifyImageMessage happyLips).mode = "PRIMARY" :=
  c8_mode_always_primary happyPreset (mkModifyImageMessage happyLips)
    (List.mem_map_of_mem mkModifyImageMessage (by simp [happyPreset]))

/-- Claim C9: with no preview image loaded the component renders nothing,
so no preset button exists and no preset-originated dispatch can occur. -/
theorem c9_renders_nothing_without_preview :
    renderEmotionPresets none = RenderOutput.nothing
    ∧ clickableDispatches (renderEmotionPresets none) = [] :=
  ⟨rfl, rfl⟩

/-- Claim C10: every outbound message carries the displacement vector twice,
nested as `landmark.vector` and as the top-level `vector`, and the two are
always the identical value. -/
theorem c10_vector_duplicated (p : EmotionPreset) (m : ModifyImageMessage)
    (hm : m ∈ activatePreset p) : m.landmark.vector = m.vector := by
  obtain ⟨l, -, rfl⟩ := List.mem_map.mp hm
  rfl

/-- Witness for C10 at the Thinking preset's lips edit. -/
theorem c10_vector_duplicated_witness :
    (mkModifyImageMessage ⟨.lips, ⟨-0.09, 0.31, 0⟩, [(.aaa, -1.52), (.eee, -5.89)]⟩).landmark.vector
      = (mkModifyImageMessage ⟨.lips, ⟨-0.09, 0.31, 0⟩, [(.aaa, -1.52), (.eee, -5.89)]⟩).vector :=
  c10_vector_duplicated thinkingPreset
    (mkModifyImageMessage ⟨.lips, ⟨-0.09, 0.31, 0⟩, [(.aaa, -1.52), (.eee, -5.89)]⟩)
    (List.mem_map_of_mem mkModifyImageMessage (by simp [thinkingPreset]))
